import Mathlib

/-!
Shallow embedding of the registry client (`registry/client.go`) of the
ecspresso repository: image-reference resolution, the manifest transport
request shape, the token login exchange, the `HasImage` retry loop and the
`HasPlatformImage` media-type dispatch.  Network I/O is modelled by explicit
"world" records supplying the response of each outgoing request; everything
else is translated statement by statement from the Go source.
-/

namespace Registry

/-- `dockerHubHost` constant from the source. -/
def dockerHubHost : String := "registry-1.docker.io"

/-- `mediaTypeDockerSchema2ManifestList` constant from the source. -/
def mediaTypeDockerSchema2ManifestList : String :=
  "application/vnd.docker.distribution.manifest.list.v2+json"

/-- `mediaTypeDockerSchema2Manifest` constant from the source. -/
def mediaTypeDockerSchema2Manifest : String :=
  "application/vnd.docker.distribution.manifest.v2+json"

/-- `ocispec.MediaTypeImageIndex` referenced by the source. -/
def mediaTypeImageIndex : String := "application/vnd.oci.image.index.v1+json"

/-- `ocispec.MediaTypeImageManifest` referenced by the source. -/
def mediaTypeImageManifest : String := "application/vnd.oci.image.manifest.v1+json"

/-- Legacy schema v1 signed media type (string literal in the source). -/
def mediaTypeDockerSchema1Signed : String :=
  "application/vnd.docker.distribution.manifest.v1+prettyjws"

/-- Legacy schema v1 plain media type (string literal in the source). -/
def mediaTypeDockerSchema1Plain : String :=
  "application/vnd.docker.distribution.manifest.v1+json"

/-- Character-level model of Go's `strings.Contains` for the
single-character needles the client uses. -/
def strContains (s : String) (c : Char) : Bool :=
  s.data.contains c

/-- Does the first character list start with the second?  Character-level
model of Go's `strings.HasPrefix`. -/
def charsStartWith : List Char → List Char → Bool
  | _, [] => true
  | [], _ :: _ => false
  | c :: cs, p :: ps => c == p && charsStartWith cs ps

/-- Go's `strings.HasPrefix(s, pre)`. -/
def strStartsWith (s pre : String) : Bool :=
  charsStartWith s.data pre.data

/-- Split a character list at every occurrence of `sep` (Go's
`strings.Split`). -/
def splitCharAux (sep : Char) : List Char → List Char → List (List Char)
  | [], acc => [acc.reverse]
  | c :: cs, acc =>
    if c == sep then acc.reverse :: splitCharAux sep cs []
    else splitCharAux sep cs (c :: acc)

/-- The '/'-separated segments of a string. -/
def splitChar (sep : Char) (s : String) : List String :=
  (splitCharAux sep s.data []).map (fun l => String.mk l)

/-- Go's `strings.Join` (Lean's `intercalate`), by structural recursion. -/
def joinSep (sep : String) : List String → String
  | [] => ""
  | [x] => x
  | x :: xs => x ++ sep ++ joinSep sep xs

/-- The `Repository` struct: host, repo path, static credentials and the
mutable cached bearer token (the `*http.Client` field carries no state we
model). -/
structure Repository where
  host : String
  repo : String
  user : String
  password : String
  token : String
deriving Repr, DecidableEq

/-- Go's `strings.SplitN(s, "/", 2)`: at most two pieces, the second being
the untouched remainder after the first separator. -/
def splitN2 (s : String) (sep : Char) : List String :=
  match splitChar sep s with
  | [] => [s]
  | [x] => [x]
  | x :: rest => [x, joinSep (String.singleton sep) rest]

/-- `New(image, user, password)`: reference resolution at construction
(`client.go` lines 33-53). -/
def New (image user password : String) : Repository :=
  let p := splitN2 image '/'
  if strContains (p.headD ("")) '.' = true ∧ 2 ≤ p.length then
    { host := p.headD (""), repo := p.getD 1 (""), user := user,
      password := password, token := "" }
  else
    let image2 := if strContains image '/' = false then "library/" ++ image else image
    { host := dockerHubHost, repo := image2, user := user,
      password := password, token := "" }

/-- The outgoing HTTP request fields the client sets. -/
structure Request where
  method : String
  url : String
  accept : String
  authorization : Option String
deriving Repr, DecidableEq

/-- `setAuthHeader` (`client.go` lines 149-156): ECR static Basic credential
takes precedence, else the cached bearer token, else nothing. -/
def setAuthHeader (c : Repository) (req : Request) : Request :=
  if c.user = "AWS" ∧ c.password ≠ "" then
    { req with authorization := some ("Basic " ++ c.password) }
  else if c.token ≠ "" then
    { req with authorization := some ("Bearer " ++ c.token) }
  else req

/-- The request built by `fetchManifests` (`client.go` lines 93-106): the
manifest endpoint with the four-entry `Accept` list, in source order. -/
def fetchManifestsRequest (c : Repository) (method tag : String) : Request :=
  setAuthHeader c
    { method := method
      url := "https://" ++ c.host ++ "/v2/" ++ c.repo ++ "/manifests/" ++ tag
      accept := joinSep (", ")
        [mediaTypeDockerSchema2ManifestList, mediaTypeImageIndex,
         mediaTypeDockerSchema2Manifest, mediaTypeImageManifest]
      authorization := none }

/-- Outcome of one login exchange against the auth endpoint: a transport
error, or a response carrying status code, status text and the decoded
`Token` field of the JSON body (`Except.error` for a body decode failure,
`Except.ok ""` for a missing field, per Go's zero value). -/
inductive LoginOutcome where
  | transportErr (e : String)
  | response (statusCode : Nat) (status : String) (decodeResult : Except String String)
deriving Repr

/-- `login` (`client.go` lines 55-91) applied to the auth endpoint's
response: non-200 fails with "login failed {status}", a decode error
propagates, an empty token is an explicit error, otherwise the token is
cached on the handle. -/
def login (c : Repository) (out : LoginOutcome) : Except String Repository :=
  match out with
  | LoginOutcome.transportErr e => Except.error e
  | LoginOutcome.response code status dec =>
    if code ≠ 200 then Except.error ("login failed " ++ status)
    else
      match dec with
      | Except.error e => Except.error e
      | Except.ok tok =>
        if tok = "" then Except.error ("response does not contains token")
        else Except.ok { c with token := tok }

/-- A HEAD-probe response: status code, status text, `Www-Authenticate`. -/
structure HttpResponse where
  statusCode : Nat
  status : String
  wwwAuthenticate : String
deriving Repr, DecidableEq

/-- Outcome of one `getAvailability` probe. -/
inductive ProbeOutcome where
  | transportErr (e : String)
  | response (r : HttpResponse)
deriving Repr, DecidableEq

/-- The network as seen by `HasImage`: the outcome of the k-th HEAD probe
and of the k-th login exchange. -/
structure World where
  probe : Nat → ProbeOutcome
  login : Nat → LoginOutcome

/-- The `tries` loop of `HasImage` (`client.go` lines 240-264), with the
remaining `tries` as fuel.  The trailing `Nat` of the result is
instrumentation only: it counts how many login exchanges were performed and
does not influence the returned pair. -/
def hasImageLoop (w : World) : Repository → Nat → Nat → Nat → Bool × Option String × Nat
  | _, _, _, 0 => (false, some ("aborted"), 0)
  | c, probeIdx, loginIdx, Nat.succ tries =>
    match w.probe probeIdx with
    | ProbeOutcome.transportErr e => (false, some e, 0)
    | ProbeOutcome.response r =>
      if r.statusCode = 401 then
        if strStartsWith r.wwwAuthenticate ("Bearer ") then
          match login c (w.login loginIdx) with
          | Except.error e => (false, some e, 1)
          | Except.ok c2 =>
            let rest := hasImageLoop w c2 (probeIdx + 1) (loginIdx + 1) tries
            (rest.1, rest.2.1, rest.2.2 + 1)
        else
          hasImageLoop w c (probeIdx + 1) loginIdx tries
      else if r.statusCode = 200 then (true, none, 0)
      else (false, some r.status, 0)

/-- `HasImage(tag)`: the loop starts with `tries = 2`. -/
def HasImage (w : World) (c : Repository) : Bool × Option String :=
  ((hasImageLoop w c 0 0 2).1, (hasImageLoop w c 0 0 2).2.1)

/-- Number of login exchanges a `HasImage` call performs (instrumentation
read off the loop). -/
def hasImageLogins (w : World) (c : Repository) : Nat :=
  (hasImageLoop w c 0 0 2).2.2

/-- An OCI platform record: the two fields the client reads. -/
structure Platform where
  architecture : String
  os : String
deriving Repr, DecidableEq

/-- An OCI descriptor: digest plus optional platform record. -/
structure Descriptor where
  digest : String
  platform : Option Platform
deriving Repr, DecidableEq

/-- An OCI image manifest: the config descriptor is all the client reads. -/
structure Manifest where
  config : Descriptor
deriving Repr, DecidableEq

/-- An OCI image configuration: the two fields the client reads. -/
structure ImageConfig where
  architecture : String
  os : String
deriving Repr, DecidableEq

/-- A fetched manifest body, decodable either as an index (its `manifests`
descriptor list) or as a single manifest, each attempt possibly failing. -/
structure ManifestBody where
  decodeIndex : Except String (List Descriptor)
  decodeManifest : Except String Manifest

/-- The network as seen by `HasPlatformImage`: the result of
`getManifests(tag)` (media type plus body, or the propagated error) and of
`getImageConfig(digest)` (outer error for transport or non-200 status,
inner error for a body decode failure). -/
structure PlatformWorld where
  manifests : Except String (String × ManifestBody)
  config : String → Except String (Except String ImageConfig)

/-- `match(want, got)` (`client.go` lines 166-169): empty `want` skips the
check. -/
def matchStr (want got : String) : Bool :=
  want = "" || want = got

/-- Result of `HasPlatformImage`: nil error, the `ErrDeprecatedManifest`
sentinel, or any other error with its message. -/
inductive PlatformResult where
  | ok
  | errDeprecatedManifest
  | err (msg : String)
deriving Repr, DecidableEq

/-- The descriptor loop of the index/list case (`client.go` lines 190-199):
`true` means an early `return nil` happened. -/
def scanManifestList (arch os : String) : List Descriptor → Bool
  | [] => false
  | d :: rest =>
    match d.platform with
    | none => true
    | some p =>
      if matchStr arch p.architecture && matchStr os p.os then true
      else scanManifestList arch os rest

/-- `HasPlatformImage(tag, arch, os)` (`client.go` lines 174-237).  The
single-manifest case compares `match(arch, p.OS) && match(os,
p.Architecture)` exactly as the source does (fields swapped). -/
def HasPlatformImage (w : PlatformWorld) (arch os : String) : PlatformResult :=
  match w.manifests with
  | Except.error e => PlatformResult.err e
  | Except.ok (mediaType, body) =>
    if mediaType = mediaTypeImageIndex ∨ mediaType = mediaTypeDockerSchema2ManifestList then
      match body.decodeIndex with
      | Except.error e => PlatformResult.err ("manifest list decode error: " ++ e)
      | Except.ok descs =>
        if scanManifestList arch os descs then PlatformResult.ok
        else PlatformResult.err ("no image for " ++ arch ++ "/" ++ os)
    else if mediaType = mediaTypeDockerSchema2Manifest ∨ mediaType = mediaTypeImageManifest then
      match body.decodeManifest with
      | Except.error e => PlatformResult.err ("manifest decode error: " ++ e)
      | Except.ok m =>
        let direct :=
          match m.config.platform with
          | some p => matchStr arch p.os && matchStr os p.architecture
          | none => false
        if direct then PlatformResult.ok
        else
          match w.config m.config.digest with
          | Except.error e => PlatformResult.err e
          | Except.ok (Except.error e) =>
            PlatformResult.err ("image config decode error: " ++ e)
          | Except.ok (Except.ok img) =>
            if matchStr arch img.architecture && matchStr os img.os then PlatformResult.ok
            else PlatformResult.err ("no image for " ++ arch ++ "/" ++ os)
    else if mediaType = mediaTypeDockerSchema1Signed ∨ mediaType = mediaTypeDockerSchema1Plain then
      PlatformResult.errDeprecatedManifest
    else PlatformResult.err ("unknown MediaType " ++ mediaType)

/-- A body on which neither decode attempt is ever consulted. -/
def unusedBody : ManifestBody :=
  { decodeIndex := Except.error ("unused"), decodeManifest := Except.error ("unused") }

/-! ## Helper lemmas -/

/-- Once the descriptor scan reaches a descriptor with no platform record,
it reports success, whatever follows it and whatever was requested. -/
theorem scanManifestList_append_none (arch os : String) (d : Descriptor)
    (hd : d.platform = none) :
    ∀ pre post : List Descriptor, scanManifestList arch os (pre ++ d :: post) = true := by
  intro pre
  induction pre with
  | nil => intro post; simp [scanManifestList, hd]
  | cons a pre ih =>
    intro post
    rcases ha : a.platform with _ | p <;> simp [scanManifestList, ha]
    exact Or.inr (ih post)

/-! ## Claims -/

/-- C6: a response whose media type is legacy schema v1 (signed or plain)
makes `HasPlatformImage` return the deprecated-manifest sentinel, for every
requested (arch, os). -/
theorem hasPlatformImage_schema1_deprecated (w : PlatformWorld)
    (arch os mt : String) (body : ManifestBody)
    (hm : w.manifests = Except.ok (mt, body))
    (hmt : mt = mediaTypeDockerSchema1Signed ∨ mt = mediaTypeDockerSchema1Plain) :
    HasPlatformImage w arch os = PlatformResult.errDeprecatedManifest := by
  rcases hmt with h | h <;> subst h <;>
    simp [HasPlatformImage, hm, mediaTypeDockerSchema1Signed, mediaTypeDockerSchema1Plain,
      mediaTypeImageIndex, mediaTypeDockerSchema2ManifestList,
      mediaTypeDockerSchema2Manifest, mediaTypeImageManifest]

/-- World used to witness C6. -/
def c6World : PlatformWorld :=
  { manifests := Except.ok (mediaTypeDockerSchema1Signed, unusedBody)
    config := fun _ => Except.error ("unused") }

/-- C6 witness: a concrete legacy schema v1 response with a mismatched
request yields the sentinel. -/
theorem hasPlatformImage_schema1_deprecated_witness :
    HasPlatformImage c6World "amd64" "linux" = PlatformResult.errDeprecatedManifest :=
  hasPlatformImage_schema1_deprecated c6World "amd64" "linux"
    mediaTypeDockerSchema1Signed unusedBody rfl (Or.inl rfl)

/-- C5: on an index/manifest-list response, as soon as the scan reaches a
descriptor with no platform record — scanning in list order — the call
reports success, for every requested (arch, os) pair, whatever descriptors
follow. -/
theorem hasPlatformImage_index_platformless_ok (w : PlatformWorld)
    (arch os mt : String) (body : ManifestBody)
    (pre post : List Descriptor) (d : Descriptor)
    (hm : w.manifests = Except.ok (mt, body))
    (hmt : mt = mediaTypeImageIndex ∨ mt = mediaTypeDockerSchema2ManifestList)
    (hdec : body.decodeIndex = Except.ok (pre ++ d :: post))
    (hd : d.platform = none) :
    HasPlatformImage w arch os = PlatformResult.ok := by
  have hscan := scanManifestList_append_none arch os d hd pre post
  rcases hmt with h | h <;> subst h <;>
    simp [HasPlatformImage, hm, hdec, hscan]

/-- Body used to witness C5: one platform-bearing descriptor, then a
platform-free one. -/
def c5Body : ManifestBody :=
  { decodeIndex := Except.ok
      [{ digest := "sha256:0a", platform := some { architecture := "arm64", os := "linux" } },
       { digest := "sha256:0b", platform := none }]
    decodeManifest := Except.error ("unused") }

/-- World used to witness C5. -/
def c5World : PlatformWorld :=
  { manifests := Except.ok (mediaTypeImageIndex, c5Body)
    config := fun _ => Except.error ("unused") }

/-- C5 witness: a mismatched request (amd64, windows) still succeeds once
the scan reaches the platform-free second descriptor. -/
theorem hasPlatformImage_index_platformless_ok_witness :
    HasPlatformImage c5World "amd64" "windows" = PlatformResult.ok :=
  hasPlatformImage_index_platformless_ok c5World "amd64" "windows"
    mediaTypeImageIndex c5Body
    [{ digest := "sha256:0a", platform := some { architecture := "arm64", os := "linux" } }]
    [] { digest := "sha256:0b", platform := none }
    rfl (Or.inl rfl) rfl rfl

/-- Body used for C1: a single manifest whose config descriptor carries the
platform record (architecture = amd64, os = linux). -/
def c1Body : ManifestBody :=
  { decodeIndex := Except.error ("unused")
    decodeManifest := Except.ok
      { config := { digest := "sha256:0001"
                    platform := some { architecture := "amd64", os := "linux" } } } }

/-- World used for C1: the config-blob fetch fails, making the fallback
visible in the result. -/
def c1World : PlatformWorld :=
  { manifests := Except.ok (mediaTypeImageManifest, c1Body)
    config := fun _ => Except.error ("404 Not Found") }

/-- C1: the single-manifest comparison is swapped in the source
(`match(arch, p.OS) && match(os, p.Architecture)`).  At a manifest whose
config platform is (architecture = amd64, os = linux), the like-for-like
request (amd64, linux) does not succeed from the platform record — the code
falls back to the config blob and surfaces its failure — while the swapped
request (linux, amd64) succeeds immediately. -/
theorem hasPlatformImage_manifest_swapped_compare :
    HasPlatformImage c1World "amd64" "linux" = PlatformResult.err ("404 Not Found") ∧
    HasPlatformImage c1World "linux" "amd64" = PlatformResult.ok := by
  constructor <;> rfl

/-- C7: reference resolution at construction.  When the first
'/'-separated segment contains a '.' and there are at least two segments,
the host is that segment and the repository path is the remainder;
otherwise the host is the fixed Docker Hub host and a reference with no '/'
gains a "library/" prefix. -/
theorem new_reference_resolution (image u pw : String) :
    (strContains ((splitChar '/' image).headD ("")) '.' = true ∧
        2 ≤ (splitChar '/' image).length →
      (New image u pw).host = (splitChar '/' image).headD ("") ∧
      (New image u pw).repo = joinSep ("/") (splitChar '/' image).tail) ∧
    (¬(strContains ((splitChar '/' image).headD ("")) '.' = true ∧
        2 ≤ (splitChar '/' image).length) →
      (New image u pw).host = dockerHubHost ∧
      (New image u pw).repo =
        if strContains image '/' = true then image else "library/" ++ image) := by
  cases hs : splitChar '/' image with
  | nil =>
    refine ⟨fun h => absurd h.2 (by simp), fun _ => ?_⟩
    cases hc : strContains image '/' <;>
      simp [New, splitN2, hs, hc]
  | cons x rest =>
    cases rest with
    | nil =>
      refine ⟨fun h => absurd h.2 (by simp), fun _ => ?_⟩
      cases hc : strContains image '/' <;>
        simp [New, splitN2, hs, hc]
    | cons y rest =>
      constructor
      · rintro ⟨hdot, -⟩
        simp only [List.headD_cons] at hdot
        simp [New, splitN2, hs, hdot, String.singleton]
        rfl
      · intro h
        have hdot : strContains x '.' = false := by
          cases hx : strContains x '.' with
          | false => rfl
          | true => exact absurd ⟨by simpa [hs] using hx, by simp [hs]⟩ h
        cases hc : strContains image '/' <;>
          simp [New, splitN2, hs, hdot, hc]

/-- C7 witness: a dotted registry reference and a bare Hub reference
resolve concretely. -/
theorem new_reference_resolution_witness :
    (New ("registry.example.com/team/app") ("") ("")).host = "registry.example.com" ∧
    (New ("registry.example.com/team/app") ("") ("")).repo = "team/app" ∧
    (New ("nginx") ("") ("")).host = dockerHubHost ∧
    (New ("nginx") ("") ("")).repo = "library/nginx" := by
  have h1 := (new_reference_resolution ("registry.example.com/team/app") ("") ("")).1
    (by constructor <;> decide)
  have h2 := (new_reference_resolution ("nginx") ("") ("")).2 (by decide)
  exact ⟨h1.1, h1.2, h2.1, h2.2⟩

/-- The `Accept` header order the spec's words claim (C8): OCI image-index,
Docker manifest-list, OCI image-manifest, Docker schema-2 manifest.
Stated for comparison with the order the source builds. -/
def specClaimedAccept : String :=
  joinSep (", ")
    [mediaTypeImageIndex, mediaTypeDockerSchema2ManifestList,
     mediaTypeImageManifest, mediaTypeDockerSchema2Manifest]

/-- C8 counterexample: the header the source builds differs from the
spec-claimed order. -/
theorem fetchManifests_accept_spec_order_cex :
    (fetchManifestsRequest (New ("nginx") ("") ("")) ("HEAD") ("latest")).accept ≠
      specClaimedAccept := by
  decide

/-- C8 (amended): every manifest request (HEAD probe and GET fetch alike)
carries an `Accept` header listing, in this order: the Docker manifest-list
media type, the OCI image-index media type, the Docker schema-2 manifest
media type, and the OCI image-manifest media type. -/
theorem fetchManifests_accept_order (c : Repository) (method tag : String) :
    (fetchManifestsRequest c method tag).accept =
      mediaTypeDockerSchema2ManifestList ++ ", " ++ mediaTypeImageIndex ++ ", " ++
        mediaTypeDockerSchema2Manifest ++ ", " ++ mediaTypeImageManifest := by
  have h : ∀ req : Request, (setAuthHeader c req).accept = req.accept := by
    intro req
    unfold setAuthHeader
    split
    · rfl
    · split <;> rfl
  unfold fetchManifestsRequest
  rw [h]
  rfl

/-- C9: the login exchange fails with "login failed {status}" on any
non-200 status, fails explicitly when the 200 body's token field is empty,
and caches the token on the handle only when it is non-empty. -/
theorem login_failure_modes (c : Repository) (code : Nat) (status : String)
    (dec : Except String String) :
    (code ≠ 200 →
      login c (LoginOutcome.response code status dec) =
        Except.error ("login failed " ++ status)) ∧
    (code = 200 → dec = Except.ok "" →
      login c (LoginOutcome.response code status dec) =
        Except.error ("response does not contains token")) ∧
    (∀ c2, login c (LoginOutcome.response code status dec) = Except.ok c2 →
      c2.token ≠ "" ∧ dec = Except.ok c2.token) := by
  refine ⟨fun h => by simp [login, h], fun h hdec => by simp [login, h, hdec], ?_⟩
  intro c2 h
  unfold login at h
  by_cases hc : code ≠ 200
  · simp [hc] at h
  · simp only [hc, if_false] at h
    cases dec with
    | error e => simp at h
    | ok tok =>
      by_cases ht : tok = ""
      · simp [ht] at h
      · simp only [ht, if_false] at h
        cases h
        exact ⟨ht, rfl⟩

/-- C9 witness: a concrete 403 fails as "login failed 403 Forbidden", a
concrete empty-token 200 fails explicitly, and a concrete successful login
caches exactly the returned non-empty token. -/
theorem login_failure_modes_witness :
    login (New ("nginx") ("") ("")) (LoginOutcome.response 403 ("403 Forbidden") (Except.ok "x")) =
      Except.error ("login failed 403 Forbidden") ∧
    login (New ("nginx") ("") ("")) (LoginOutcome.response 200 ("200 OK") (Except.ok "")) =
      Except.error ("response does not contains token") := by
  refine ⟨(login_failure_modes (New ("nginx") ("") ("")) 403 ("403 Forbidden")
    (Except.ok "x")).1 (by decide), ?_⟩
  exact (login_failure_modes (New ("nginx") ("") ("")) 200 ("200 OK")
    (Except.ok "")).2.1 rfl rfl

/-- C10: on a request carrying no Authorization header yet, a handle with
user "AWS" and empty password sends no Basic header — the cached bearer
token, if any, is used instead — while user "AWS" with a non-empty password
sends the Basic header even when a bearer token is cached. -/
theorem setAuthHeader_aws_precedence (c : Repository) (req : Request)
    (hreq : req.authorization = none) :
    (c.user = "AWS" → c.password = "" →
      (setAuthHeader c req).authorization =
        if c.token = "" then none else some ("Bearer " ++ c.token)) ∧
    (c.user = "AWS" → c.password ≠ "" →
      (setAuthHeader c req).authorization = some ("Basic " ++ c.password)) := by
  constructor
  · intro _ hp
    unfold setAuthHeader
    rw [if_neg (by simp [hp])]
    by_cases ht : c.token = ""
    · simp [ht, hreq]
    · simp [ht]
  · intro hu hp
    unfold setAuthHeader
    rw [if_pos ⟨hu, hp⟩]

/-- C10 witness: with user "AWS", empty password and a cached token the
header is the bearer token; with a non-empty password and the same cached
token the header is the Basic credential. -/
theorem setAuthHeader_aws_precedence_witness :
    (setAuthHeader
      { host := "h", repo := "r", user := "AWS", password := "", token := "tok" }
      { method := "HEAD", url := "u", accept := "a", authorization := none }).authorization =
      some ("Bearer tok") ∧
    (setAuthHeader
      { host := "h", repo := "r", user := "AWS", password := "pw", token := "tok" }
      { method := "HEAD", url := "u", accept := "a", authorization := none }).authorization =
      some ("Basic pw") := by
  constructor
  · have h := (setAuthHeader_aws_precedence
      { host := "h", repo := "r", user := "AWS", password := "", token := "tok" }
      { method := "HEAD", url := "u", accept := "a", authorization := none } rfl).1 rfl rfl
    simpa using h
  · exact (setAuthHeader_aws_precedence
      { host := "h", repo := "r", user := "AWS", password := "pw", token := "tok" }
      { method := "HEAD", url := "u", accept := "a", authorization := none } rfl).2 rfl
      (by decide)

/-- Every result of the `HasImage` loop is either success with a nil error
or failure with a non-nil error: `(false, none)` is unreachable. -/
theorem hasImageLoop_shape (w : World) :
    ∀ (n : Nat) (c : Repository) (p l : Nat),
      ((hasImageLoop w c p l n).1 = true ∧ (hasImageLoop w c p l n).2.1 = none) ∨
      ((hasImageLoop w c p l n).1 = false ∧ ∃ e, (hasImageLoop w c p l n).2.1 = some e) := by
  intro n
  induction n with
  | zero => intro c p l; exact Or.inr ⟨rfl, "aborted", rfl⟩
  | succ n ih =>
    intro c p l
    rcases hp : w.probe p with e | r
    · exact Or.inr ⟨by simp [hasImageLoop, hp], e, by simp [hasImageLoop, hp]⟩
    · by_cases h401 : r.statusCode = 401
      · by_cases hb : strStartsWith r.wwwAuthenticate ("Bearer ") = true
        · rcases hl : login c (w.login l) with e | c2
          · exact Or.inr ⟨by simp [hasImageLoop, hp, h401, hb, hl], e,
              by simp [hasImageLoop, hp, h401, hb, hl]⟩
          · rcases ih c2 (p + 1) (l + 1) with ⟨h1, h2⟩ | ⟨h1, e, h2⟩
            · exact Or.inl ⟨by simp [hasImageLoop, hp, h401, hb, hl, h1],
                by simp [hasImageLoop, hp, h401, hb, hl, h2]⟩
            · exact Or.inr ⟨by simp [hasImageLoop, hp, h401, hb, hl, h1], e,
                by simp [hasImageLoop, hp, h401, hb, hl, h2]⟩
        · rcases ih c (p + 1) l with ⟨h1, h2⟩ | ⟨h1, e, h2⟩
          · exact Or.inl ⟨by simp [hasImageLoop, hp, h401, hb, h1],
              by simp [hasImageLoop, hp, h401, hb, h2]⟩
          · exact Or.inr ⟨by simp [hasImageLoop, hp, h401, hb, h1], e,
              by simp [hasImageLoop, hp, h401, hb, h2]⟩
      · by_cases h200 : r.statusCode = 200
        · exact Or.inl ⟨by simp [hasImageLoop, hp, h401, h200],
            by simp [hasImageLoop, hp, h401, h200]⟩
        · exact Or.inr ⟨by simp [hasImageLoop, hp, h401, h200], r.status,
            by simp [hasImageLoop, hp, h401, h200]⟩

/-- `HasImage` never answers `(false, none)`: an error is never silently
downgraded to "does not exist". -/
theorem hasImage_never_false_nil (w : World) (c : Repository) :
    HasImage w c ≠ (false, none) := by
  intro h
  simp only [HasImage, Prod.mk.injEq] at h
  rcases hasImageLoop_shape w 2 c 0 0 with ⟨h1, -⟩ | ⟨-, e, h2⟩
  · rw [h1] at h
    exact absurd h.1 (by decide)
  · rw [h2] at h
    exact Option.noConfusion h.2

/-- C2 (amended): `HasImage` returns `(true, nil)` iff the HEAD probe
returns 200 within at most one re-authentication cycle; a second
consecutive 401 received after a completed authentication exchange
surfaces as a non-nil error — the "aborted" exhaustion error or the second
login's failure — never as `(false, nil)`. -/
theorem hasImage_success_iff (w : World) (c : Repository) :
    (HasImage w c = (true, none) ↔
      ((∃ r, w.probe 0 = ProbeOutcome.response r ∧ r.statusCode = 200) ∨
       (∃ r0 r1, w.probe 0 = ProbeOutcome.response r0 ∧ r0.statusCode = 401 ∧
         w.probe 1 = ProbeOutcome.response r1 ∧ r1.statusCode = 200 ∧
         (strStartsWith r0.wwwAuthenticate ("Bearer ") = true →
           ∃ c2, login c (w.login 0) = Except.ok c2)))) ∧
    (∀ r0 r1 c2, w.probe 0 = ProbeOutcome.response r0 → r0.statusCode = 401 →
      strStartsWith r0.wwwAuthenticate ("Bearer ") = true →
      login c (w.login 0) = Except.ok c2 →
      w.probe 1 = ProbeOutcome.response r1 → r1.statusCode = 401 →
      (HasImage w c).1 = false ∧ (HasImage w c).2 ≠ none) := by
  constructor
  · rcases hp0 : w.probe 0 with e0 | r0
    · constructor
      · intro h
        have he : HasImage w c = (false, some e0) := by
          simp [HasImage, hasImageLoop, hp0]
        rw [he] at h
        exact absurd h (by simp)
      · rintro (⟨r, hr, -⟩ | ⟨a, b, hr, -, -, -, -⟩) <;> cases hr
    · by_cases h401 : r0.statusCode = 401
      · by_cases hb : strStartsWith r0.wwwAuthenticate ("Bearer ") = true
        · rcases hl : login c (w.login 0) with e | c2
          · constructor
            · intro h
              have he : HasImage w c = (false, some e) := by
                simp [HasImage, hasImageLoop, hp0, h401, hb, hl]
              rw [he] at h
              exact absurd h (by simp)
            · rintro (⟨r, hr, h200⟩ | ⟨r0', r1', hr, -, -, -, hlog⟩)
              · cases hr; omega
              · cases hr
                rcases hlog hb with ⟨c2, hc2⟩
                exact Except.noConfusion hc2
          · rcases hp1 : w.probe 1 with e1 | r1
            · constructor
              · intro h
                have he : HasImage w c = (false, some e1) := by
                  simp [HasImage, hasImageLoop, hp0, h401, hb, hl, hp1]
                rw [he] at h; exact absurd h (by simp)
              · rintro (⟨r, hr, h200⟩ | ⟨r0', r1', hr, -, hr1, -, -⟩)
                · cases hr; omega
                · cases hr1
            · by_cases h1401 : r1.statusCode = 401
              · constructor
                · intro h
                  by_cases hb1 : strStartsWith r1.wwwAuthenticate ("Bearer ") = true
                  · rcases hl1 : login c2 (w.login 1) with e | c3
                    · have he : HasImage w c = (false, some e) := by
                        simp [HasImage, hasImageLoop, hp0, h401, hb, hl, hp1, h1401, hb1, hl1]
                      rw [he] at h; exact absurd h (by simp)
                    · have he : HasImage w c = (false, some ("aborted")) := by
                        simp [HasImage, hasImageLoop, hp0, h401, hb, hl, hp1, h1401, hb1, hl1]
                      rw [he] at h; exact absurd h (by simp)
                  · have he : HasImage w c = (false, some ("aborted")) := by
                      simp [HasImage, hasImageLoop, hp0, h401, hb, hl, hp1, h1401, hb1]
                    rw [he] at h; exact absurd h (by simp)
                · rintro (⟨r, hr, h200⟩ | ⟨r0', r1', hr, -, hr1, h200, -⟩)
                  · cases hr; omega
                  · cases hr1; omega
              · by_cases h1200 : r1.statusCode = 200
                · constructor
                  · intro _
                    exact Or.inr ⟨r0, r1, rfl, h401, rfl, h1200, fun _ => ⟨c2, rfl⟩⟩
                  · intro _
                    simp [HasImage, hasImageLoop, hp0, h401, hb, hl, hp1, h1401, h1200]
                · constructor
                  · intro h
                    have he : HasImage w c = (false, some r1.status) := by
                      simp [HasImage, hasImageLoop, hp0, h401, hb, hl, hp1, h1401, h1200]
                    rw [he] at h; exact absurd h (by simp)
                  · rintro (⟨r, hr, h200⟩ | ⟨r0', r1', hr, -, hr1, h200, -⟩)
                    · cases hr; omega
                    · cases hr1; exact absurd h200 h1200
        · rcases hp1 : w.probe 1 with e1 | r1
          · constructor
            · intro h
              have he : HasImage w c = (false, some e1) := by
                simp [HasImage, hasImageLoop, hp0, h401, hb, hp1]
              rw [he] at h; exact absurd h (by simp)
            · rintro (⟨r, hr, h200⟩ | ⟨r0', r1', hr, -, hr1, -, -⟩)
              · cases hr; omega
              · cases hr1
          · by_cases h1401 : r1.statusCode = 401
            · constructor
              · intro h
                by_cases hb1 : strStartsWith r1.wwwAuthenticate ("Bearer ") = true
                · rcases hl1 : login c (w.login 0) with e | c3
                  · have he : HasImage w c = (false, some e) := by
                      simp [HasImage, hasImageLoop, hp0, h401, hb, hp1, h1401, hb1, hl1]
                    rw [he] at h; exact absurd h (by simp)
                  · have he : HasImage w c = (false, some ("aborted")) := by
                      simp [HasImage, hasImageLoop, hp0, h401, hb, hp1, h1401, hb1, hl1]
                    rw [he] at h; exact absurd h (by simp)
                · have he : HasImage w c = (false, some ("aborted")) := by
                    simp [HasImage, hasImageLoop, hp0, h401, hb, hp1, h1401, hb1]
                  rw [he] at h; exact absurd h (by simp)
              · rintro (⟨r, hr, h200⟩ | ⟨r0', r1', hr, -, hr1, h200, -⟩)
                · cases hr; omega
                · cases hr1; omega
            · by_cases h1200 : r1.statusCode = 200
              · constructor
                · intro _
                  exact Or.inr ⟨r0, r1, rfl, h401, rfl, h1200, fun hb' => absurd hb' hb⟩
                · intro _
                  simp [HasImage, hasImageLoop, hp0, h401, hb, hp1, h1401, h1200]
              · constructor
                · intro h
                  have he : HasImage w c = (false, some r1.status) := by
                    simp [HasImage, hasImageLoop, hp0, h401, hb, hp1, h1401, h1200]
                  rw [he] at h; exact absurd h (by simp)
                · rintro (⟨r, hr, h200⟩ | ⟨r0', r1', hr, -, hr1, h200, -⟩)
                  · cases hr; omega
                  · cases hr1; exact absurd h200 h1200
      · by_cases h200 : r0.statusCode = 200
        · constructor
          · intro _
            exact Or.inl ⟨r0, rfl, h200⟩
          · intro _
            simp [HasImage, hasImageLoop, hp0, h401, h200]
        · constructor
          · intro h
            have he : HasImage w c = (false, some r0.status) := by
              simp [HasImage, hasImageLoop, hp0, h401, h200]
            rw [he] at h; exact absurd h (by simp)
          · rintro (⟨r, hr, hr200⟩ | ⟨r0', r1', hr, hr401, -, -, -⟩)
            · cases hr; exact absurd hr200 h200
            · cases hr; exact absurd hr401 h401
  · intro r0 r1 c2 hp0 h401 hb hl hp1 h1401
    by_cases hb1 : strStartsWith r1.wwwAuthenticate ("Bearer ") = true
    · rcases hl1 : login c2 (w.login 1) with e | c3
      · have he : HasImage w c = (false, some e) := by
          simp [HasImage, hasImageLoop, hp0, h401, hb, hl, hp1, h1401, hb1, hl1]
        rw [he]; exact ⟨rfl, by simp⟩
      · have he : HasImage w c = (false, some ("aborted")) := by
          simp [HasImage, hasImageLoop, hp0, h401, hb, hl, hp1, h1401, hb1, hl1]
        rw [he]; exact ⟨rfl, by simp⟩
    · have he : HasImage w c = (false, some ("aborted")) := by
        simp [HasImage, hasImageLoop, hp0, h401, hb, hl, hp1, h1401, hb1]
      rw [he]; exact ⟨rfl, by simp⟩

/-- World for the C2 counterexample and witness: every probe answers 401
with a Bearer challenge, every login succeeds. -/
def c2CexWorld : World :=
  { probe := fun _ => ProbeOutcome.response
      { statusCode := 401, status := "401 Unauthorized", wwwAuthenticate := "Bearer realm=r" }
    login := fun _ => LoginOutcome.response 200 ("200 OK") (Except.ok "tok") }

/-- C2 counterexample: after a completed authentication exchange, a second
consecutive 401 yields the "aborted" error, not the status error the claim
states. -/
theorem hasImage_second401_not_status_error_cex :
    HasImage c2CexWorld (New ("nginx") ("") ("")) = (false, some ("aborted")) ∧
    (HasImage c2CexWorld (New ("nginx") ("") (""))).2 ≠ some ("401 Unauthorized") := by
  constructor <;> decide

/-- C2 witness: the amended theorem applied to the concrete
double-401 world. -/
theorem hasImage_success_iff_witness :
    (HasImage c2CexWorld (New ("nginx") ("") (""))).1 = false ∧
    (HasImage c2CexWorld (New ("nginx") ("") (""))).2 ≠ none :=
  (hasImage_success_iff c2CexWorld (New ("nginx") ("") (""))).2
    { statusCode := 401, status := "401 Unauthorized", wwwAuthenticate := "Bearer realm=r" }
    { statusCode := 401, status := "401 Unauthorized", wwwAuthenticate := "Bearer realm=r" }
    { host := dockerHubHost, repo := "library/nginx", user := "", password := "",
      token := "tok" }
    rfl rfl (by decide) rfl rfl rfl

/-- C3 (amended): a probe status other than 200 and 401 terminates the call
immediately with that status as the error; a 401 whose challenge does not
begin with "Bearer " is not reported immediately — the probe is silently
retried without an authentication attempt, the result is never
`(false, nil)`, and it is success exactly when the retry returns 200. -/
theorem hasImage_status_error_cases (w : World) (c : Repository) :
    (∀ r, w.probe 0 = ProbeOutcome.response r → r.statusCode ≠ 200 → r.statusCode ≠ 401 →
      HasImage w c = (false, some r.status)) ∧
    (∀ r, w.probe 0 = ProbeOutcome.response r → r.statusCode = 401 →
      strStartsWith r.wwwAuthenticate ("Bearer ") = false →
      HasImage w c ≠ (false, none) ∧
      (HasImage w c = (true, none) ↔
        ∃ r1, w.probe 1 = ProbeOutcome.response r1 ∧ r1.statusCode = 200)) := by
  constructor
  · intro r hp h200 h401
    simp [HasImage, hasImageLoop, hp, h200, h401]
  · intro r hp h401 hbf
    have hb : ¬ strStartsWith r.wwwAuthenticate ("Bearer ") = true := by
      simp [hbf]
    refine ⟨hasImage_never_false_nil w c, ?_⟩
    rcases hp1 : w.probe 1 with e1 | r1
    · constructor
      · intro h
        have he : HasImage w c = (false, some e1) := by
          simp [HasImage, hasImageLoop, hp, h401, hb, hp1]
        rw [he] at h; exact absurd h (by simp)
      · rintro ⟨r1, hr1, -⟩
        cases hr1
    · by_cases h1401 : r1.statusCode = 401
      · constructor
        · intro h
          by_cases hb1 : strStartsWith r1.wwwAuthenticate ("Bearer ") = true
          · rcases hl1 : login c (w.login 0) with e | c3
            · have he : HasImage w c = (false, some e) := by
                simp [HasImage, hasImageLoop, hp, h401, hb, hp1, h1401, hb1, hl1]
              rw [he] at h; exact absurd h (by simp)
            · have he : HasImage w c = (false, some ("aborted")) := by
                simp [HasImage, hasImageLoop, hp, h401, hb, hp1, h1401, hb1, hl1]
              rw [he] at h; exact absurd h (by simp)
          · have he : HasImage w c = (false, some ("aborted")) := by
              simp [HasImage, hasImageLoop, hp, h401, hb, hp1, h1401, hb1]
            rw [he] at h; exact absurd h (by simp)
        · rintro ⟨r1', hr1, h1200⟩
          cases hr1; omega
      · by_cases h1200 : r1.statusCode = 200
        · constructor
          · intro _
            exact ⟨r1, rfl, h1200⟩
          · intro _
            simp [HasImage, hasImageLoop, hp, h401, hb, hp1, h1401, h1200]
        · constructor
          · intro h
            have he : HasImage w c = (false, some r1.status) := by
              simp [HasImage, hasImageLoop, hp, h401, hb, hp1, h1401, h1200]
            rw [he] at h; exact absurd h (by simp)
          · rintro ⟨r1', hr1, h200'⟩
            cases hr1; exact absurd h200' h1200

/-- World for the C3 witness: the first probe answers 404. -/
def c3World : World :=
  { probe := fun _ => ProbeOutcome.response
      { statusCode := 404, status := "404 Not Found", wwwAuthenticate := "" }
    login := fun _ => LoginOutcome.transportErr ("unused") }

/-- C3 witness: a 404 probe terminates at once with its status text. -/
theorem hasImage_status_error_cases_witness :
    HasImage c3World (New ("nginx") ("") ("")) = (false, some ("404 Not Found")) :=
  (hasImage_status_error_cases c3World (New ("nginx") ("") (""))).1
    { statusCode := 404, status := "404 Not Found", wwwAuthenticate := "" }
    rfl (by decide) (by decide)

/-- World for the C3 counterexample: a 401 without a Bearer challenge, then
a 404. -/
def c3CexWorld : World :=
  { probe := fun n =>
      if n = 0 then ProbeOutcome.response
        { statusCode := 401, status := "401 Unauthorized", wwwAuthenticate := "" }
      else ProbeOutcome.response
        { statusCode := 404, status := "404 Not Found", wwwAuthenticate := "" }
    login := fun _ => LoginOutcome.transportErr ("unused") }

/-- C3 counterexample: a 401 without a usable Bearer challenge does not
terminate immediately reporting that status — the call retries and reports
the second response's status instead. -/
theorem hasImage_401_no_bearer_not_immediate_cex :
    HasImage c3CexWorld (New ("nginx") ("") ("")) = (false, some ("404 Not Found")) ∧
    (HasImage c3CexWorld (New ("nginx") ("") (""))).2 ≠ some ("401 Unauthorized") := by
  constructor <;> decide

/-- The login count of the `HasImage` loop is bounded by its fuel. -/
theorem hasImageLoop_logins_le (w : World) :
    ∀ (n : Nat) (c : Repository) (p l : Nat), (hasImageLoop w c p l n).2.2 ≤ n := by
  intro n
  induction n with
  | zero => intro c p l; exact Nat.le_refl 0
  | succ n ih =>
    intro c p l
    rcases hp : w.probe p with e | r
    · simp [hasImageLoop, hp]
    · by_cases h401 : r.statusCode = 401
      · by_cases hb : strStartsWith r.wwwAuthenticate ("Bearer ") = true
        · rcases hl : login c (w.login l) with e | c2
          · simp [hasImageLoop, hp, h401, hb, hl]
          · have hrest := ih c2 (p + 1) (l + 1)
            simp only [hasImageLoop, hp, h401, hb, hl]
            simpa using Nat.succ_le_succ hrest
        · have hrest := ih c (p + 1) l
          simp only [hasImageLoop, hp, h401, hb]
          exact Nat.le_succ_of_le hrest
      · by_cases h200 : r.statusCode = 200 <;>
          simp [hasImageLoop, hp, h401, h200]

/-- C4 (amended): a `HasImage` call performs at most one login exchange per
probe attempt, hence at most two over the whole call — not at most one. -/
theorem hasImage_at_most_two_logins (w : World) (c : Repository) :
    hasImageLogins w c ≤ 2 :=
  hasImageLoop_logins_le w 2 c 0 0

/-- World for the C4 counterexample: both probes answer 401 with a Bearer
challenge and both logins succeed. -/
def c4CexWorld : World :=
  { probe := fun _ => ProbeOutcome.response
      { statusCode := 401, status := "401 Unauthorized", wwwAuthenticate := "Bearer realm=r" }
    login := fun n => LoginOutcome.response 200 ("200 OK")
      (Except.ok (if n = 0 then "tok0" else "tok1")) }

/-- C4 counterexample: a single `HasImage` call that performs two login
exchanges, refuting "at most one authentication attempt". -/
theorem hasImage_two_logins_cex :
    hasImageLogins c4CexWorld (New ("nginx") ("") ("")) = 2 ∧
    ¬ hasImageLogins c4CexWorld (New ("nginx") ("") ("")) ≤ 1 := by
  constructor <;> decide

end Registry
